import Mathlib

/-!
Verification of the ALLANIS_VENDAS point-of-sale core: a shallow embedding of
the cart builder, checkout orchestrator, cash-register ledger, stock
mutations and installment grouping, translated from the TypeScript source
(`src/pages/Sales.tsx`, `src/pages/CashFlow.tsx`, `src/pages/Installments.tsx`,
`src/pages/Stock.tsx`, `src/components/StockModal.tsx`), with theorems
settling the specification's claims about them.

Modelling conventions: monetary amounts and prices are rationals (the source
uses JS numbers; the claims under scrutiny are about exact equalities of
sums and divisions), stock quantities and cart quantities are integers (the
database column is `integer` with no check constraint, so negative values
are representable), dates are integer day offsets, and the remote database
is a record of lists of rows.  Each fallible multi-step sequence is modelled
with an explicit failure oracle saying which steps' inserts are rejected by
the store.
-/

namespace AllanisVendas

/-- Product row (`products` table; fields used by `Sales.tsx` / `Stock.tsx`). -/
structure Product where
  id : String
  name : String
  code : String
  price : ℚ
  stock_quantity : ℤ
deriving DecidableEq, Repr

/-- Cart line of the Sales page: the product snapshot plus a quantity
(`interface CartItem extends Product { quantity }`). -/
structure CartItem where
  product : Product
  quantity : ℤ
deriving DecidableEq, Repr

/-- `addToCart` from `Sales.tsx`: if the product is already in the cart,
increment its quantity by 1 unless the quantity has reached the product's
`stock_quantity`; otherwise append a new line with quantity 1 (no stock
check on this path). -/
def addToCart (cart : List CartItem) (product : Product) : List CartItem :=
  match cart.find? (fun item => item.product.id == product.id) with
  | some existing =>
      if existing.quantity ≥ product.stock_quantity then cart
      else cart.map (fun item =>
        if item.product.id == product.id then
          { item with quantity := item.quantity + 1 }
        else item)
  | none => cart ++ [{ product := product, quantity := 1 }]

/-- `removeFromCart` from `Sales.tsx`: unconditional removal by product id. -/
def removeFromCart (cart : List CartItem) (productId : String) : List CartItem :=
  cart.filter (fun item => !(item.product.id == productId))

/-- `updateQuantity` from `Sales.tsx`: add `delta` to the quantity of the
matching line, but leave the line unchanged when the result would be `< 1`
or exceed the line's `stock_quantity` snapshot. -/
def updateQuantity (cart : List CartItem) (productId : String) (delta : ℤ) :
    List CartItem :=
  cart.map (fun item =>
    if item.product.id == productId then
      let newQuantity := item.quantity + delta
      if newQuantity < 1 then item
      else if newQuantity > item.product.stock_quantity then item
      else { item with quantity := newQuantity }
    else item)

/-- The cart total from `Sales.tsx`:
`cart.reduce((sum, item) => sum + item.price * item.quantity, 0)`. -/
def cartTotal (cart : List CartItem) : ℚ :=
  cart.foldl (fun sum item => sum + item.product.price * (item.quantity : ℚ)) 0

/-- Payment type toggle of the Sales page. -/
inductive PaymentType where
  | cash
  | installment
deriving DecidableEq, Repr

/-- Installment status (`installments.status` check constraint). -/
inductive InstStatus where
  | pending
  | paid
  | overdue
deriving DecidableEq, Repr

/-- Sale row (`sales` table). -/
structure Sale where
  id : String
  client_id : String
  user_id : String
  total_amount : ℚ
  payment_method : String
deriving DecidableEq, Repr

/-- Sale line-item row (`sale_items` table). -/
structure SaleItem where
  sale_id : String
  product_id : String
  quantity : ℤ
  unit_price : ℚ
deriving DecidableEq, Repr

/-- Installment row (`installments` table). -/
structure Installment where
  sale_id : String
  installment_number : ℕ
  due_date : ℤ
  amount : ℚ
  status : InstStatus
deriving DecidableEq, Repr

/-- Cash-register status (`cash_registers.status` check constraint). -/
inductive RegStatus where
  | opened
  | closed
deriving DecidableEq, Repr

/-- Cash-register row (`cash_registers` table). -/
structure CashRegister where
  id : String
  user_id : String
  initial_balance : ℚ
  final_balance : Option ℚ
  status : RegStatus
deriving DecidableEq, Repr

/-- Transaction type (`cash_transactions.type`). -/
inductive TxType where
  | sale
  | installment_payment
  | opening
  | closing
  | withdrawal
  | deposit
deriving DecidableEq, Repr

/-- Cash-transaction row (`cash_transactions` table). -/
structure CashTx where
  register_id : String
  sale_id : Option String
  installment_id : Option String
  description : String
  amount : ℚ
  type : TxType
deriving DecidableEq, Repr

/-- Client row (fields selected by `Sales.tsx` / `Installments.tsx`). -/
structure IClient where
  id : String
  name : String
deriving DecidableEq, Repr

/-- The remote store as seen by the pages under verification. -/
structure DB where
  products : List Product
  sales : List Sale
  sale_items : List SaleItem
  installments : List Installment
  cash_registers : List CashRegister
  cash_transactions : List CashTx
deriving DecidableEq, Repr

/-- The in-page inputs of `handleCheckout` in `Sales.tsx`: the component
state (`selectedClient`, `cart`, payment states, the fetched `clients`
list, the logged-in user) plus the checkout time and the id the store
assigns to the new sale row. -/
structure CheckoutEnv where
  selectedClient : String
  userId : String
  clients : List IClient
  cart : List CartItem
  paymentType : PaymentType
  paymentMethod : String
  installments : ℕ
  amountPaid : ℚ
  saleId : String
  now : ℤ
deriving DecidableEq, Repr

/-- Validation errors of `handleCheckout` (the three early `alert`/`return`
guards). -/
inductive CheckoutError where
  | noClient
  | emptyCart
  | insufficientPayment
deriving DecidableEq, Repr

/-- The checkout steps whose store inserts are checked and thrown on error
(`if (saleError) throw saleError` etc.).  Steps 4 (stock update) and 6
(cash transaction) discard their store results and cannot throw. -/
inductive Stage where
  | insertSale
  | insertItems
  | insertInstallments
deriving DecidableEq, Repr

/-- A checkout failure: either one of the validation guards, or a store
rejection at one of the throwing steps. -/
inductive CheckoutFailure where
  | validation : CheckoutError → CheckoutFailure
  | stepFailed : Stage → CheckoutFailure
deriving DecidableEq, Repr

/-- The sale row built at step 1 of `handleCheckout`: total from the cart,
payment-method tag either the composite installment tag or the direct
method. -/
def mkSale (env : CheckoutEnv) : Sale :=
  { id := env.saleId
    client_id := env.selectedClient
    user_id := env.userId
    total_amount := cartTotal env.cart
    payment_method :=
      if env.paymentType = PaymentType.installment then
        "credit_card_" ++ toString env.installments ++ "x"
      else env.paymentMethod }

/-- The line-item rows built at step 2: one per cart entry, unit price from
the cart snapshot. -/
def mkSaleItems (env : CheckoutEnv) : List SaleItem :=
  env.cart.map (fun item =>
    { sale_id := env.saleId
      product_id := item.product.id
      quantity := item.quantity
      unit_price := item.product.price })

/-- The installment rows built at step 3: amount `total / installments` for
every row (no remainder redistribution), ordinal `index + 1`, due date 30
days times the ordinal after checkout time, status pending. -/
def mkInstallments (env : CheckoutEnv) : List Installment :=
  let installmentAmount := cartTotal env.cart / (env.installments : ℚ)
  (List.range env.installments).map (fun index =>
    { sale_id := env.saleId
      installment_number := index + 1
      due_date := env.now + 30 * ((index : ℤ) + 1)
      amount := installmentAmount
      status := InstStatus.pending })

/-- Step 4 of `handleCheckout`: for each cart line, read the product's
current stock and write back `stock_quantity - item.quantity` (no floor
check); products absent from the store are skipped. -/
def applyStockDecrements (products : List Product) (cart : List CartItem) :
    List Product :=
  cart.foldl (fun ps item =>
    ps.map (fun p =>
      if p.id == item.product.id then
        { p with stock_quantity := p.stock_quantity - item.quantity }
      else p)) products

/-- Supabase's `.single()`: exactly one row, otherwise null data. -/
def singleRow {α : Type} (rows : List α) : Option α :=
  match rows with
  | [row] => some row
  | _ => none

/-- The open-register lookup used by checkout step 6 (and by the
installment-payment flow): the single `cash_registers` row of this user
with status open. -/
def openRegisterFor (registers : List CashRegister) (userId : String) :
    Option CashRegister :=
  singleRow (registers.filter (fun r =>
    r.user_id == userId && r.status == RegStatus.opened))

/-- The client name used in the step-6 transaction description
(`clients.find(...)?.name || 'Cliente'`). -/
def clientNameFor (clients : List IClient) (clientId : String) : String :=
  match clients.find? (fun c => c.id == clientId) with
  | some c => c.name
  | none => "Cliente"

/-- Step 6 of `handleCheckout`: when the payment is immediate cash and the
user has an open register, the cash transaction of type sale, with amount
`amountPaid > total ? total : amountPaid` for the cash-amount method and
the full total otherwise. -/
def mkCashTx (registers : List CashRegister) (env : CheckoutEnv) :
    Option CashTx :=
  if env.paymentType = PaymentType.cash then
    match openRegisterFor registers env.userId with
    | some register =>
        some { register_id := register.id
               sale_id := some env.saleId
               installment_id := none
               description := "Venda #" ++ env.saleId.take 8 ++ " - " ++
                 clientNameFor env.clients env.selectedClient
               amount :=
                 if env.paymentMethod = "money" then
                   if env.amountPaid > cartTotal env.cart then
                     cartTotal env.cart
                   else env.amountPaid
                 else cartTotal env.cart
               type := TxType.sale }
    | none => none
  else none

/-- `handleCheckout` from `Sales.tsx`, with a failure oracle describing
which of the throwing store inserts are rejected.  The three validation
guards run before any write; each step's success is required before the
next begins and a rejected insert aborts the sequence without undoing the
earlier writes. -/
def handleCheckoutSteps (fail : Stage → Bool) (db : DB) (env : CheckoutEnv) :
    DB × Except CheckoutFailure Sale :=
  if env.selectedClient = "" then
    (db, Except.error (CheckoutFailure.validation CheckoutError.noClient))
  else if env.cart = [] then
    (db, Except.error (CheckoutFailure.validation CheckoutError.emptyCart))
  else if env.paymentType = PaymentType.cash ∧ env.paymentMethod = "money" ∧
      env.amountPaid < cartTotal env.cart then
    (db, Except.error
      (CheckoutFailure.validation CheckoutError.insufficientPayment))
  else if fail Stage.insertSale then
    (db, Except.error (CheckoutFailure.stepFailed Stage.insertSale))
  else
    let sale := mkSale env
    let db1 := { db with sales := db.sales ++ [sale] }
    if fail Stage.insertItems then
      (db1, Except.error (CheckoutFailure.stepFailed Stage.insertItems))
    else
      let db2 := { db1 with sale_items := db1.sale_items ++ mkSaleItems env }
      if env.paymentType = PaymentType.installment ∧
          fail Stage.insertInstallments then
        (db2, Except.error
          (CheckoutFailure.stepFailed Stage.insertInstallments))
      else
        let db3 :=
          if env.paymentType = PaymentType.installment then
            { db2 with installments := db2.installments ++ mkInstallments env }
          else db2
        let db4 := { db3 with
          products := applyStockDecrements db3.products env.cart }
        let db5 :=
          match mkCashTx db.cash_registers env with
          | some tx =>
              { db4 with
                cash_transactions := db4.cash_transactions ++ [tx] }
          | none => db4
        (db5, Except.ok sale)

/-- `handleCheckout` when every store insert succeeds. -/
def handleCheckout (db : DB) (env : CheckoutEnv) :
    DB × Except CheckoutFailure Sale :=
  handleCheckoutSteps (fun _ => false) db env

/-- The three validation guards of `handleCheckout` all pass. -/
def checkoutValid (env : CheckoutEnv) : Prop :=
  env.selectedClient ≠ "" ∧ env.cart ≠ [] ∧
  ¬(env.paymentType = PaymentType.cash ∧ env.paymentMethod = "money" ∧
    env.amountPaid < cartTotal env.cart)

/-- `calculateBalance` from `CashFlow.tsx`: left fold over the register's
transactions, subtracting withdrawals and adding every other type. -/
def calculateBalance (transactions : List CashTx) : ℚ :=
  transactions.foldl (fun acc curr =>
    if curr.type = TxType.withdrawal then acc - curr.amount
    else acc + curr.amount) 0

/-- `handleOpenRegister` from `CashFlow.tsx`: insert an open register with
the given initial balance, then record an opening transaction of the same
amount. -/
def handleOpenRegister (userId : String) (initialBalance : ℚ)
    (regId : String) : CashRegister × CashTx :=
  ({ id := regId
     user_id := userId
     initial_balance := initialBalance
     final_balance := none
     status := RegStatus.opened },
   { register_id := regId
     sale_id := none
     installment_id := none
     description := "Abertura de Caixa"
     amount := initialBalance
     type := TxType.opening })

/-- `handleCloseRegister` from `CashFlow.tsx`: mark the register closed
with `final_balance = calculateBalance()`, then append a closing
transaction whose amount is the same computed balance (the in-memory
transactions list does not change between the two computations). -/
def handleCloseRegister (register : CashRegister)
    (transactions : List CashTx) : CashRegister × List CashTx :=
  let updated := { register with
    status := RegStatus.closed
    final_balance := some (calculateBalance transactions) }
  let closingTx : CashTx :=
    { register_id := register.id
      sale_id := none
      installment_id := none
      description := "Fechamento de Caixa"
      amount := calculateBalance transactions
      type := TxType.closing }
  (updated, transactions ++ [closingTx])

/-- Manual stock adjustment direction in `StockModal.tsx`. -/
inductive StockOp where
  | add
  | remove
deriving DecidableEq, Repr

/-- The `newQuantity` computed by `handleSubmit` in `StockModal.tsx`:
current stock plus the entered quantity for entries, minus it for
removals. -/
def stockModalNewQuantity (product : Product) (type : StockOp)
    (quantity : ℤ) : ℤ :=
  match type with
  | StockOp.add => product.stock_quantity + quantity
  | StockOp.remove => product.stock_quantity - quantity

/-- `handleSubmit` from `StockModal.tsx`: compute the new quantity, throw
when it would be negative, otherwise write it; `some` is the written
quantity, `none` the thrown validation error. -/
def stockModalSubmit (product : Product) (type : StockOp) (quantity : ℤ) :
    Option ℤ :=
  if stockModalNewQuantity product type quantity < 0 then none
  else some (stockModalNewQuantity product type quantity)

/-- The stock write of purchase registration in `Stock.tsx`
(`stock_quantity: product.stock_quantity + newPurchase.quantity`). -/
def purchaseStockUpdate (product : Product) (quantity : ℤ) : Product :=
  { product with stock_quantity := product.stock_quantity + quantity }

/-- Total quantity the cart holds of a given product id (what checkout
step 4 subtracts from that product's stock across the whole loop). -/
def cartQty (cart : List CartItem) (productId : String) : ℤ :=
  ((cart.filter (fun item => item.product.id == productId)).map
    (fun item => item.quantity)).sum

/-- Installment row as fetched by `Installments.tsx`, joined with the sale's
client (`sale:sales(client:clients(id, name))`). -/
structure InstRow where
  id : String
  sale_id : String
  installment_number : ℕ
  due_date : ℤ
  amount : ℚ
  status : InstStatus
  client : IClient
deriving DecidableEq, Repr

/-- A client group produced by `groupInstallments`. -/
structure ClientGroup where
  clientId : String
  clientName : String
  installments : List InstRow
  totalPending : ℚ
  totalOverdue : ℚ
deriving DecidableEq, Repr

/-- Status filter of the Installments page. -/
inductive StatusFilter where
  | all
  | pending
  | paid
  | overdue
deriving DecidableEq, Repr

/-- View-mode toggle of the Installments page. -/
inductive ViewMode where
  | all
  | today
deriving DecidableEq, Repr

/-- JS `toLowerCase` on the strings compared by the search filter, as a
character list. -/
def lowerChars (s : String) : List Char :=
  s.data.map Char.toLower

/-- `pat` occurs as a contiguous subsequence of the character list
(JS `a.includes(b)`). -/
def seqIncludes (pat : List Char) : List Char → Bool
  | [] => pat.isEmpty
  | c :: cs => pat.isPrefixOf (c :: cs) || seqIncludes pat cs

/-- The filter applied to each installment before grouping: client-name
search, status filter, and the due-today restriction of the `today` view. -/
def instMatches (searchTerm : String) (statusFilter : StatusFilter)
    (viewMode : ViewMode) (today : ℤ) (inst : InstRow) : Bool :=
  let matchesSearch := seqIncludes (lowerChars searchTerm)
    (lowerChars inst.client.name)
  let matchesStatus :=
    match statusFilter with
    | StatusFilter.all => true
    | StatusFilter.pending => inst.status == InstStatus.pending
    | StatusFilter.paid => inst.status == InstStatus.paid
    | StatusFilter.overdue => inst.status == InstStatus.overdue
  let matchesDate :=
    match viewMode with
    | ViewMode.all => true
    | ViewMode.today => inst.due_date == today
  matchesSearch && matchesStatus && matchesDate

/-- One step of the grouping loop in `groupInstallments`: the group key is
`inst.sale.client.name` (the client NAME, not the client id); a missing
group is created with zero totals, then the installment is pushed and its
amount added to the pending or overdue total according to its status. -/
def addToGroups (groups : List ClientGroup) (inst : InstRow) :
    List ClientGroup :=
  let key := inst.client.name
  if groups.any (fun g => g.clientId == key) then
    groups.map (fun g =>
      if g.clientId == key then
        { g with
          installments := g.installments ++ [inst]
          totalPending := g.totalPending +
            (if inst.status = InstStatus.pending then inst.amount else 0)
          totalOverdue := g.totalOverdue +
            (if inst.status = InstStatus.overdue then inst.amount else 0) }
      else g)
  else
    groups ++ [{ clientId := key
                 clientName := inst.client.name
                 installments := [inst]
                 totalPending :=
                   if inst.status = InstStatus.pending then inst.amount else 0
                 totalOverdue :=
                   if inst.status = InstStatus.overdue then inst.amount
                   else 0 }]

/-- Insertion into a name-sorted group list (model of the final
`sort((a, b) => a.clientName.localeCompare(b.clientName))`). -/
def insertByName (g : ClientGroup) : List ClientGroup → List ClientGroup
  | [] => [g]
  | h :: t =>
      if g.clientName ≤ h.clientName then g :: h :: t
      else h :: insertByName g t

/-- Name-ascending sort of the group list. -/
def sortByName (groups : List ClientGroup) : List ClientGroup :=
  groups.foldr insertByName []

/-- `groupInstallments` from `Installments.tsx`: filter, group by client
name in first-encounter order, then sort groups by client name. -/
def groupInstallments (installments : List InstRow) (searchTerm : String)
    (statusFilter : StatusFilter) (viewMode : ViewMode) (today : ℤ) :
    List ClientGroup :=
  sortByName
    ((installments.filter
        (instMatches searchTerm statusFilter viewMode today)).foldl
      addToGroups [])

/-! ## Theorems -/

/-- Unfolding lemma: the ledger fold started from any accumulator. -/
lemma calculateBalance_foldl_eq (txs : List CashTx) (acc : ℚ) :
    txs.foldl (fun a c =>
        if c.type = TxType.withdrawal then a - c.amount else a + c.amount)
      acc =
    acc + (txs.map (fun t =>
        if t.type = TxType.withdrawal then -t.amount else t.amount)).sum := by
  induction txs generalizing acc with
  | nil => simp
  | cons h t ih =>
    simp only [List.foldl_cons, List.map_cons, List.sum_cons, ih]
    by_cases hw : h.type = TxType.withdrawal
    · simp only [if_pos hw]; ring
    · simp only [if_neg hw]; ring

/-- C5: `currentBalance()` equals the sum over all transactions of the open
register of (−amount if type = withdrawal, else +amount), including the
opening entry; and in the scenario that opens with initial balance 100,
records a sale of 50 and a withdrawal of 20, it returns 130. -/
theorem calculateBalance_signed_sum (txs : List CashTx) :
    calculateBalance txs =
      (txs.map (fun t =>
        if t.type = TxType.withdrawal then -t.amount else t.amount)).sum ∧
    calculateBalance
      [(handleOpenRegister "u1" 100 "r1").2,
       { register_id := "r1", sale_id := some "s1", installment_id := none,
         description := "Venda #s1 - Cliente", amount := 50,
         type := TxType.sale },
       { register_id := "r1", sale_id := none, installment_id := none,
         description := "Sangria", amount := 20,
         type := TxType.withdrawal }] = 130 := by
  constructor
  · simpa [calculateBalance] using calculateBalance_foldl_eq txs 0
  · simp +decide only [calculateBalance, handleOpenRegister, List.foldl]
    norm_num

/-- C6: closing a register appends a closing transaction whose amount is the
balance computed immediately before the write (over the transactions as they
stood at close time, the closing row itself not included), and marks the
register closed with that same value stored as its final balance. -/
theorem closeRegister_spec (register : CashRegister)
    (transactions : List CashTx) :
    ∃ closingTx : CashTx,
      (handleCloseRegister register transactions).2 =
        transactions ++ [closingTx] ∧
      closingTx.type = TxType.closing ∧
      closingTx.amount = calculateBalance transactions ∧
      ((handleCloseRegister register transactions).1).status =
        RegStatus.closed ∧
      ((handleCloseRegister register transactions).1).final_balance =
        some closingTx.amount :=
  ⟨_, rfl, rfl, rfl, rfl, rfl⟩

/-- C9: when the product is not already present in the cart, `addToCart`
appends a line with quantity 1 with no stock check whatsoever — the
conclusion holds for every product, including one whose `stock_quantity`
is 0, whose new line then exceeds the available stock. -/
theorem addToCart_new_line_no_stock_check (cart : List CartItem)
    (product : Product)
    (h : cart.find? (fun item => item.product.id == product.id) = none) :
    addToCart cart product =
      cart ++ [{ product := product, quantity := 1 }] := by
  rw [addToCart, h]

/-- A product with zero stock, as it can appear as an argument to
`addToCart`. -/
def pZero : Product :=
  { id := "p0", name := "Produto Zerado", code := "P000", price := 10,
    stock_quantity := 0 }

/-- Witness for C9: adding the zero-stock product to an empty cart creates a
line with quantity 1, which exceeds the available stock 0. -/
theorem addToCart_new_line_no_stock_check_witness :
    addToCart [] pZero = [{ product := pZero, quantity := 1 }] ∧
    pZero.stock_quantity = 0 ∧
    (0 : ℤ) < (1 : ℤ) :=
  ⟨addToCart_new_line_no_stock_check [] pZero rfl, rfl, by decide⟩

/-- First client named Maria Silva. -/
def mariaA : IClient := { id := "client-1", name := "Maria Silva" }

/-- Second, distinct client who happens to share the name Maria Silva. -/
def mariaB : IClient := { id := "client-2", name := "Maria Silva" }

/-- A pending installment of the first Maria Silva. -/
def instRowA : InstRow :=
  { id := "i1", sale_id := "s1", installment_number := 1, due_date := 10,
    amount := 10, status := InstStatus.pending, client := mariaA }

/-- A pending installment of the second Maria Silva. -/
def instRowB : InstRow :=
  { id := "i2", sale_id := "s2", installment_number := 1, due_date := 20,
    amount := 20, status := InstStatus.pending, client := mariaB }

/-- An overdue installment of the second Maria Silva. -/
def instRowC : InstRow :=
  { id := "i3", sale_id := "s2", installment_number := 2, due_date := 30,
    amount := 5, status := InstStatus.overdue, client := mariaB }

/-- C10: the installment grouping keys by client NAME, not client id —
installments of the two distinct clients `mariaA` and `mariaB`, who share
one name, are merged into a single group whose pending and overdue totals
combine both clients' installments. -/
theorem groupInstallments_merges_same_name :
    mariaA.id ≠ mariaB.id ∧
    mariaA.name = mariaB.name ∧
    groupInstallments [instRowA, instRowB, instRowC] "" StatusFilter.all
        ViewMode.all 0 =
      [{ clientId := "Maria Silva", clientName := "Maria Silva",
         installments := [instRowA, instRowB, instRowC],
         totalPending := instRowA.amount + instRowB.amount,
         totalOverdue := instRowC.amount }] := by
  refine ⟨by decide, by decide, ?_⟩
  simp +decide only [groupInstallments, sortByName, insertByName, addToGroups,
    instMatches, seqIncludes, lowerChars, instRowA, instRowB, instRowC,
    mariaA, mariaB, List.filter, List.foldl, List.foldr, List.any,
    List.isPrefixOf, List.map, List.isEmpty]
  norm_num

/-- Helper for C8: when every matching line's delta lands outside
`[1, stock_quantity]`, `updateQuantity` is a no-op on the whole cart. -/
lemma updateQuantity_noop (cart : List CartItem) (productId : String)
    (delta : ℤ)
    (hno : ∀ item ∈ cart, item.product.id = productId →
      item.quantity + delta < 1 ∨
      item.product.stock_quantity < item.quantity + delta) :
    updateQuantity cart productId delta = cart := by
  induction cart with
  | nil => rfl
  | cons hd tl ih =>
    have htl : updateQuantity tl productId delta = tl :=
      ih (fun item h hp => hno item (List.mem_cons_of_mem _ h) hp)
    show _ :: updateQuantity tl productId delta = hd :: tl
    rw [htl]
    congr 1
    by_cases hid : (hd.product.id == productId) = true
    · have hrange := hno hd (List.mem_cons_self _ _) (by simpa using hid)
      simp only [hid, if_true]
      split
      · rfl
      · split
        · rfl
        · rename_i hlt hgt
          rcases hrange with h | h
          · exact absurd h hlt
          · exact absurd h hgt
    · simp [hid]

/-- C8: assuming every cart line currently satisfies
`1 ≤ quantity ≤ stock_quantity`, `changeQuantity` never produces a quantity
outside that closed range, and a delta that would land every matching line
outside the range leaves the cart unchanged (in particular it never removes
a line by driving its quantity to zero). -/
theorem updateQuantity_clamps (cart : List CartItem) (productId : String)
    (delta : ℤ)
    (hinv : ∀ item ∈ cart,
      1 ≤ item.quantity ∧ item.quantity ≤ item.product.stock_quantity) :
    (∀ item ∈ updateQuantity cart productId delta,
      1 ≤ item.quantity ∧ item.quantity ≤ item.product.stock_quantity) ∧
    ((∀ item ∈ cart, item.product.id = productId →
        item.quantity + delta < 1 ∨
        item.product.stock_quantity < item.quantity + delta) →
      updateQuantity cart productId delta = cart) := by
  refine ⟨?_, updateQuantity_noop cart productId delta⟩
  intro item' hmem
  rw [updateQuantity, List.mem_map] at hmem
  obtain ⟨item, hitem, rfl⟩ := hmem
  have hbase := hinv item hitem
  dsimp only
  split
  · split
    · exact hbase
    · split
      · exact hbase
      · rename_i hlt hgt
        exact ⟨not_lt.mp hlt, not_lt.mp hgt⟩
  · exact hbase

/-- A well-formed cart line used by the C8 witness: quantity 2 of a product
with stock 5. -/
def itemW : CartItem :=
  { product := { id := "pw", name := "Produto W", code := "PW", price := 10,
                 stock_quantity := 5 },
    quantity := 2 }

/-- Witness for C8: on the cart `[itemW]` (quantity 2, stock 5) a delta of
−5 would land at −3, outside `[1, 5]`, so the cart is unchanged. -/
theorem updateQuantity_clamps_witness :
    updateQuantity [itemW] "pw" (-5) = [itemW] ∧
    1 ≤ itemW.quantity ∧ itemW.quantity ≤ itemW.product.stock_quantity := by
  have h := updateQuantity_clamps [itemW] "pw" (-5) (by decide)
  exact ⟨h.2 (by decide), by decide, by decide⟩

/-- The success path of checkout: when the validation guards pass and no
store insert is rejected, the store gains the sale row, its line items, the
installment batch when the payment is by installment, the per-line stock
decrements, and the optional cash transaction. -/
lemma handleCheckout_success (db : DB) (env : CheckoutEnv)
    (h : checkoutValid env) :
    handleCheckoutSteps (fun _ => false) db env =
      ({ products := applyStockDecrements db.products env.cart
         sales := db.sales ++ [mkSale env]
         sale_items := db.sale_items ++ mkSaleItems env
         installments := db.installments ++
           (if env.paymentType = PaymentType.installment then
             mkInstallments env else [])
         cash_registers := db.cash_registers
         cash_transactions := db.cash_transactions ++
           (mkCashTx db.cash_registers env).toList },
       Except.ok (mkSale env)) := by
  obtain ⟨h1, h2, h3⟩ := h
  rw [handleCheckoutSteps, if_neg h1, if_neg h2, if_neg h3]
  by_cases hpt : env.paymentType = PaymentType.installment
  · cases hctx : mkCashTx db.cash_registers env <;>
      simp [hpt, hctx, Option.toList]
  · cases hctx : mkCashTx db.cash_registers env <;>
      simp [hpt, hctx, Option.toList]

/-- C2: for a checkout paid in N installments over a cart of total T,
exactly N installment rows are created, the k-th (0-based) carrying ordinal
k+1, amount T / N (equal division, no remainder redistribution), status
pending, and due date 30·(k+1) days after checkout time. -/
theorem checkout_installment_schedule (db : DB) (env : CheckoutEnv)
    (hv : checkoutValid env)
    (hpt : env.paymentType = PaymentType.installment) :
    ∃ created : List Installment,
      ((handleCheckout db env).1).installments = db.installments ++ created ∧
      created.length = env.installments ∧
      ∀ k : ℕ, k < env.installments →
        created[k]? = some
          { sale_id := env.saleId
            installment_number := k + 1
            due_date := env.now + 30 * ((k : ℤ) + 1)
            amount := cartTotal env.cart / (env.installments : ℚ)
            status := InstStatus.pending } := by
  refine ⟨mkInstallments env, ?_, ?_, ?_⟩
  · rw [handleCheckout, handleCheckout_success db env hv]
    simp [hpt]
  · simp [mkInstallments]
  · intro k hk
    simp [mkInstallments, List.getElem?_range hk]

/-- Cart used by checkout witnesses: 2 × product A at 10.00 plus
1 × product B at 5.00, total 25.00. -/
def cartW : List CartItem :=
  [{ product := { id := "pa", name := "Produto A", code := "PA", price := 10,
                  stock_quantity := 5 },
     quantity := 2 },
   { product := { id := "pb", name := "Produto B", code := "PB", price := 5,
                  stock_quantity := 4 },
     quantity := 1 }]

/-- Store contents used by checkout witnesses. -/
def dbW : DB :=
  { products :=
      [{ id := "pa", name := "Produto A", code := "PA", price := 10,
         stock_quantity := 5 },
       { id := "pb", name := "Produto B", code := "PB", price := 5,
         stock_quantity := 4 }]
    sales := []
    sale_items := []
    installments := []
    cash_registers := []
    cash_transactions := [] }

/-- Checkout inputs for the C2 witness: the 25.00 cart split into 3
installments. -/
def envInst : CheckoutEnv :=
  { selectedClient := "client-1"
    userId := "u1"
    clients := [mariaA]
    cart := cartW
    paymentType := PaymentType.installment
    paymentMethod := "pix"
    installments := 3
    amountPaid := 0
    saleId := "sale-0001"
    now := 0 }

/-- Witness for C2 at the concrete split of 25.00 into 3 installments. -/
theorem checkout_installment_schedule_witness :
    ∃ created : List Installment,
      ((handleCheckout dbW envInst).1).installments =
        dbW.installments ++ created ∧
      created.length = envInst.installments ∧
      ∀ k : ℕ, k < envInst.installments →
        created[k]? = some
          { sale_id := envInst.saleId
            installment_number := k + 1
            due_date := envInst.now + 30 * ((k : ℤ) + 1)
            amount := cartTotal envInst.cart / (envInst.installments : ℚ)
            status := InstStatus.pending } :=
  checkout_installment_schedule dbW envInst
    ⟨by decide, by decide, by decide⟩ rfl

/-- C3: when a validation precondition fails — no client selected, empty
cart, or immediate cash via the cash-amount method with a tendered amount
below the total — checkout surfaces a validation error and writes nothing:
the store is unchanged, whatever the failure oracle says about later
steps. -/
theorem checkout_validation_no_write (fail : Stage → Bool) (db : DB)
    (env : CheckoutEnv)
    (h : env.selectedClient = "" ∨ env.cart = [] ∨
      (env.paymentType = PaymentType.cash ∧ env.paymentMethod = "money" ∧
       env.amountPaid < cartTotal env.cart)) :
    (handleCheckoutSteps fail db env).1 = db ∧
    ∃ e : CheckoutError,
      (handleCheckoutSteps fail db env).2 =
        Except.error (CheckoutFailure.validation e) := by
  by_cases h1 : env.selectedClient = ""
  · rw [handleCheckoutSteps, if_pos h1]
    exact ⟨rfl, CheckoutError.noClient, rfl⟩
  · by_cases h2 : env.cart = []
    · rw [handleCheckoutSteps, if_neg h1, if_pos h2]
      exact ⟨rfl, CheckoutError.emptyCart, rfl⟩
    · have h3 := (h.resolve_left h1).resolve_left h2
      rw [handleCheckoutSteps, if_neg h1, if_neg h2, if_pos h3]
      exact ⟨rfl, CheckoutError.insufficientPayment, rfl⟩

/-- Checkout inputs for the C3 witness: the spec's scenario of a 15.00 cart
paid in cash with only 10.00 tendered. -/
def envShort : CheckoutEnv :=
  { selectedClient := "client-1"
    userId := "u1"
    clients := [mariaA]
    cart := [{ product := { id := "pc", name := "Produto C", code := "PC",
                            price := 15, stock_quantity := 3 },
               quantity := 1 }]
    paymentType := PaymentType.cash
    paymentMethod := "money"
    installments := 2
    amountPaid := 10
    saleId := "sale-0002"
    now := 0 }

/-- Witness for C3: tendering 10.00 against a 15.00 total is rejected with a
validation error and the store is untouched. -/
theorem checkout_validation_no_write_witness :
    (handleCheckoutSteps (fun _ => false) dbW envShort).1 = dbW ∧
    ∃ e : CheckoutError,
      (handleCheckoutSteps (fun _ => false) dbW envShort).2 =
        Except.error (CheckoutFailure.validation e) :=
  checkout_validation_no_write (fun _ => false) dbW envShort
    (Or.inr (Or.inr ⟨rfl, rfl, by norm_num [cartTotal, envShort]⟩))

/-- The `.single()` open-register lookup succeeds exactly when an open
register of the user exists, provided registers respect the one-open-per-
operator invariant (with two open rows `.single()` returns null data). -/
lemma openRegisterFor_isSome_iff (registers : List CashRegister)
    (userId : String)
    (hinv : (registers.filter (fun r =>
      r.user_id == userId && r.status == RegStatus.opened)).length ≤ 1) :
    (openRegisterFor registers userId).isSome = true ↔
      ∃ r ∈ registers, r.user_id = userId ∧ r.status = RegStatus.opened := by
  simp only [openRegisterFor]
  rcases hf : registers.filter (fun r =>
      r.user_id == userId && r.status == RegStatus.opened) with _ | ⟨x, _ | ⟨y, t⟩⟩
  · rw [hf]
    simp only [singleRow, Option.isSome_none, Bool.false_eq_true, false_iff]
    rintro ⟨r, hr, hu, hs⟩
    have hmem : r ∈ registers.filter (fun r =>
        r.user_id == userId && r.status == RegStatus.opened) :=
      List.mem_filter.mpr ⟨hr, by simp [hu, hs]⟩
    rw [hf] at hmem
    exact absurd hmem (List.not_mem_nil r)
  · rw [hf]
    simp only [singleRow, Option.isSome_some, true_iff]
    have hx : x ∈ registers.filter (fun r =>
        r.user_id == userId && r.status == RegStatus.opened) := by
      rw [hf]; exact List.mem_cons_self _ _
    have hprops := List.mem_filter.mp hx
    refine ⟨x, hprops.1, ?_, ?_⟩
    · have := hprops.2
      simp only [Bool.and_eq_true, beq_iff_eq] at this
      exact this.1
    · have := hprops.2
      simp only [Bool.and_eq_true, beq_iff_eq] at this
      exact this.2
  · rw [hf] at hinv
    simp at hinv

/-- The source's change computation agrees with `min`:
`amountPaid > total ? total : amountPaid` is `min amountPaid total`. -/
lemma ite_gt_eq_min (a t : ℚ) : (if a > t then t else a) = min a t := by
  rcases le_or_lt a t with h | h
  · rw [if_neg (not_lt.mpr h)]
    exact (min_eq_left h).symm
  · rw [if_pos h]
    exact (min_eq_right h.le).symm

/-- C4: on a successful checkout, a cash transaction of type sale is
appended iff the payment is immediate (not installment) and the operator
has an open register, and its amount is `min(amount tendered, total)` for
the cash-amount method and the full total otherwise. -/
theorem checkout_cash_transaction_iff (db : DB) (env : CheckoutEnv)
    (hv : checkoutValid env)
    (hreg : (db.cash_registers.filter (fun r =>
      r.user_id == env.userId && r.status == RegStatus.opened)).length ≤ 1) :
    (∃ tx : CashTx,
        ((handleCheckout db env).1).cash_transactions =
          db.cash_transactions ++ [tx] ∧
        tx.type = TxType.sale ∧
        tx.amount =
          (if env.paymentMethod = "money" then
            min env.amountPaid (cartTotal env.cart)
          else cartTotal env.cart)) ↔
      (env.paymentType = PaymentType.cash ∧
       ∃ r ∈ db.cash_registers,
         r.user_id = env.userId ∧ r.status = RegStatus.opened) := by
  rw [handleCheckout, handleCheckout_success db env hv]
  constructor
  · rintro ⟨tx, htx, -, -⟩
    have hsome : mkCashTx db.cash_registers env = some tx := by
      have hlist : (mkCashTx db.cash_registers env).toList = [tx] :=
        List.append_cancel_left htx
      cases hmk : mkCashTx db.cash_registers env <;> rw [hmk] at hlist
      · exact absurd hlist (by simp)
      · simpa using hlist
    rw [mkCashTx] at hsome
    by_cases hcash : env.paymentType = PaymentType.cash
    · rw [if_pos hcash] at hsome
      refine ⟨hcash, (openRegisterFor_isSome_iff db.cash_registers
        env.userId hreg).mp ?_⟩
      cases hor : openRegisterFor db.cash_registers env.userId <;>
        rw [hor] at hsome
      · exact absurd hsome (by simp)
      · simp
    · rw [if_neg hcash] at hsome
      exact absurd hsome (by simp)
  · rintro ⟨hcash, hex⟩
    have hsome := (openRegisterFor_isSome_iff db.cash_registers
      env.userId hreg).mpr hex
    obtain ⟨register, hor⟩ := Option.isSome_iff_exists.mp hsome
    refine ⟨{ register_id := register.id
              sale_id := some env.saleId
              installment_id := none
              description := "Venda #" ++ env.saleId.take 8 ++ " - " ++
                clientNameFor env.clients env.selectedClient
              amount :=
                if env.paymentMethod = "money" then
                  min env.amountPaid (cartTotal env.cart)
                else cartTotal env.cart
              type := TxType.sale }, ?_, rfl, rfl⟩
    rw [mkCashTx, if_pos hcash, hor]
    by_cases hm : env.paymentMethod = "money"
    · simp only [hm, if_pos, Option.toList_some, if_true]
      rw [ite_gt_eq_min]
    · simp [hm]

/-- Open register used by the C4 witness. -/
def regW : CashRegister :=
  { id := "r1", user_id := "u1", initial_balance := 100,
    final_balance := none, status := RegStatus.opened }

/-- Store with one open register for operator u1. -/
def dbReg : DB :=
  { products := dbW.products
    sales := []
    sale_items := []
    installments := []
    cash_registers := [regW]
    cash_transactions := [] }

/-- Checkout inputs for the C4 witness: the 25.00 cart paid in immediate
cash with the cash-amount method and 30.00 tendered. -/
def envCash : CheckoutEnv :=
  { selectedClient := "client-1"
    userId := "u1"
    clients := [mariaA]
    cart := cartW
    paymentType := PaymentType.cash
    paymentMethod := "money"
    installments := 2
    amountPaid := 30
    saleId := "sale-0004"
    now := 0 }

/-- Witness for C4: with an open register and immediate cash payment, the
sale transaction is appended with the min-of-tendered-and-total amount. -/
theorem checkout_cash_transaction_iff_witness :
    (∃ tx : CashTx,
        ((handleCheckout dbReg envCash).1).cash_transactions =
          dbReg.cash_transactions ++ [tx] ∧
        tx.type = TxType.sale ∧
        tx.amount =
          (if envCash.paymentMethod = "money" then
            min envCash.amountPaid (cartTotal envCash.cart)
          else cartTotal envCash.cart)) ↔
      (envCash.paymentType = PaymentType.cash ∧
       ∃ r ∈ dbReg.cash_registers,
         r.user_id = envCash.userId ∧ r.status = RegStatus.opened) :=
  checkout_cash_transaction_iff dbReg envCash
    ⟨by decide, by decide, by norm_num [envCash, cartTotal, cartW]⟩
    (by decide)

/-- C7: when a checkout step fails after earlier steps committed, the error
is surfaced identifying the failed stage and the earlier writes stay in the
store: a rejected line-items insert leaves the sale row committed, and a
rejected installments insert leaves both the sale row and its line items
committed. -/
theorem checkout_partial_failure_not_rolled_back (db : DB)
    (env : CheckoutEnv) (hv : checkoutValid env) :
    (handleCheckoutSteps (fun s => s == Stage.insertItems) db env =
      ({ db with sales := db.sales ++ [mkSale env] },
       Except.error (CheckoutFailure.stepFailed Stage.insertItems))) ∧
    (env.paymentType = PaymentType.installment →
      handleCheckoutSteps (fun s => s == Stage.insertInstallments) db env =
        ({ db with sales := db.sales ++ [mkSale env]
                   sale_items := db.sale_items ++ mkSaleItems env },
         Except.error (CheckoutFailure.stepFailed Stage.insertInstallments))) := by
  obtain ⟨h1, h2, h3⟩ := hv
  constructor
  · rw [handleCheckoutSteps, if_neg h1, if_neg h2, if_neg h3]
    simp
  · intro hpt
    rw [handleCheckoutSteps, if_neg h1, if_neg h2, if_neg h3]
    simp [hpt]

/-- Witness for C7 at the 3-installment checkout inputs: the store keeps the
sale row (and on the installments failure also the line items) while the
stage's failure is surfaced. -/
theorem checkout_partial_failure_not_rolled_back_witness :
    (handleCheckoutSteps (fun s => s == Stage.insertItems) dbW envInst =
      ({ dbW with sales := dbW.sales ++ [mkSale envInst] },
       Except.error (CheckoutFailure.stepFailed Stage.insertItems))) ∧
    (handleCheckoutSteps (fun s => s == Stage.insertInstallments) dbW
        envInst =
      ({ dbW with sales := dbW.sales ++ [mkSale envInst]
                  sale_items := dbW.sale_items ++ mkSaleItems envInst },
       Except.error (CheckoutFailure.stepFailed Stage.insertInstallments))) := by
  have h := checkout_partial_failure_not_rolled_back dbW envInst
    ⟨by decide, by decide, by decide⟩
  exact ⟨h.1, h.2 rfl⟩

/-- Store holding only the zero-stock product. -/
def dbZero : DB :=
  { products := [pZero]
    sales := []
    sale_items := []
    installments := []
    cash_registers := []
    cash_transactions := [] }

/-- Checkout inputs reaching the stock decrement with the zero-stock
product: its cart is literally `addToCart [] pZero`, the quantity-1 line
the cart builder creates without a stock check. -/
def envZero : CheckoutEnv :=
  { selectedClient := "client-1"
    userId := "u1"
    clients := [mariaA]
    cart := addToCart [] pZero
    paymentType := PaymentType.cash
    paymentMethod := "pix"
    installments := 2
    amountPaid := 0
    saleId := "sale-0005"
    now := 0 }

/-- Counterexample to C1 as stated: a successful checkout whose cart holds
quantity 1 of the zero-stock product (a cart state the cart builder itself
produces) drives that product's stock to −1 — the per-line stock decrement
of checkout has no non-negativity check. -/
theorem checkout_stock_goes_negative :
    ((handleCheckout dbZero envZero).1).products =
      [{ pZero with stock_quantity := -1 }] ∧
    ({ pZero with stock_quantity := -1 } : Product).stock_quantity < 0 := by
  constructor
  · rw [handleCheckout,
      handleCheckout_success dbZero envZero ⟨by decide, by decide, by decide⟩]
    show applyStockDecrements dbZero.products envZero.cart = _
    decide
  · decide

/-- Helper for the amended C1: the checkout stock-decrement loop subtracts,
from each product in the store, the total cart quantity carrying that
product's id. -/
lemma applyStockDecrements_eq_map (products : List Product)
    (cart : List CartItem) :
    applyStockDecrements products cart =
      products.map (fun p =>
        { p with stock_quantity := p.stock_quantity - cartQty cart p.id }) := by
  induction cart generalizing products with
  | nil =>
    show products = products.map (fun p =>
      { p with stock_quantity := p.stock_quantity - cartQty [] p.id })
    have hfun : (fun p : Product =>
        { p with stock_quantity := p.stock_quantity - cartQty [] p.id }) =
        id := by
      funext p
      show ({ p with stock_quantity := p.stock_quantity - 0 } : Product) = p
      rw [sub_zero]
    rw [hfun, List.map_id]
  | cons hd tl ih =>
    show applyStockDecrements (products.map (fun p =>
        if p.id == hd.product.id then
          { p with stock_quantity := p.stock_quantity - hd.quantity }
        else p)) tl = _
    rw [ih, List.map_map]
    congr 1
    funext p
    by_cases hid : (p.id == hd.product.id) = true
    · have heq : p.id = hd.product.id := by simpa using hid
      have hcq : cartQty (hd :: tl) p.id = hd.quantity + cartQty tl p.id := by
        simp [cartQty, List.filter_cons, heq.symm]
      simp only [Function.comp, if_pos hid, hcq]
      rw [sub_sub]
    · have hne : ¬ (hd.product.id == p.id) = true := by
        intro h
        exact hid (by simp_all)
      have hcq : cartQty (hd :: tl) p.id = cartQty tl p.id := by
        simp [cartQty, List.filter_cons, hne]
      simp only [Function.comp, if_neg hid, hcq]

/-- Helper for the amended C1: when every product's total cart quantity is
at most its current stock, the checkout decrement leaves every stock
non-negative. -/
lemma applyStockDecrements_nonneg (products : List Product)
    (cart : List CartItem)
    (hs : ∀ p ∈ products, cartQty cart p.id ≤ p.stock_quantity) :
    ∀ p' ∈ applyStockDecrements products cart, 0 ≤ p'.stock_quantity := by
  intro p' hp'
  rw [applyStockDecrements_eq_map, List.mem_map] at hp'
  obtain ⟨p, hp, rfl⟩ := hp'
  exact sub_nonneg.mpr (hs p hp)

/-- C1 amended: manual stock adjustment never writes a negative stock (it
validates and throws first), purchase registration of a non-negative
quantity keeps a non-negative stock, and the checkout per-line stock
decrement keeps every stock non-negative exactly under the extra condition
that each product's total cart quantity does not exceed its current stock —
without that condition checkout can drive stock negative, as
`checkout_stock_goes_negative` shows. -/
theorem stock_mutations_nonneg_amended :
    (∀ (product : Product) (type : StockOp) (quantity newQuantity : ℤ),
        stockModalSubmit product type quantity = some newQuantity →
        0 ≤ newQuantity) ∧
    (∀ (product : Product) (quantity : ℤ),
        0 ≤ product.stock_quantity → 0 ≤ quantity →
        0 ≤ (purchaseStockUpdate product quantity).stock_quantity) ∧
    (∀ (products : List Product) (cart : List CartItem),
        (∀ p ∈ products, cartQty cart p.id ≤ p.stock_quantity) →
        ∀ p' ∈ applyStockDecrements products cart,
          0 ≤ p'.stock_quantity) := by
  refine ⟨?_, ?_, fun products cart hs =>
    applyStockDecrements_nonneg products cart hs⟩
  · intro product type quantity newQuantity h
    rw [stockModalSubmit] at h
    split at h
    · exact absurd h (by simp)
    · rename_i hneg
      cases h
      exact not_lt.mp hneg
  · intro product quantity h0 hq
    simpa [purchaseStockUpdate] using add_nonneg h0 hq

/-- Product with stock 5 used by the amended-C1 witness. -/
def prodW : Product :=
  { id := "pw2", name := "Produto W2", code := "PW2", price := 10,
    stock_quantity := 5 }

/-- Cart line of 3 units of `prodW` used by the amended-C1 witness. -/
def itemW2 : CartItem := { product := prodW, quantity := 3 }

/-- Witness for the amended C1: removing 2 from stock 5 writes 3 ≥ 0,
purchasing 4 units keeps stock non-negative, and decrementing 3 cart units
from stock 5 keeps every stock non-negative. -/
theorem stock_mutations_nonneg_amended_witness :
    stockModalSubmit prodW StockOp.remove 2 = some 3 ∧ (0 : ℤ) ≤ 3 ∧
    (0 : ℤ) ≤ (purchaseStockUpdate prodW 4).stock_quantity ∧
    (∀ p' ∈ applyStockDecrements [prodW] [itemW2],
      0 ≤ p'.stock_quantity) := by
  refine ⟨by decide, ?_, ?_, ?_⟩
  · exact stock_mutations_nonneg_amended.1 prodW StockOp.remove 2 3 (by decide)
  · exact stock_mutations_nonneg_amended.2.1 prodW 4 (by decide) (by decide)
  · exact stock_mutations_nonneg_amended.2.2 [prodW] [itemW2] (by decide)

end AllanisVendas
